import Mathlib

/-!
Verification of the pipecat-quickstart supervisory layer.

This file shallowly embeds the session-supervision core of the repository:
the per-session idle state machine (`IdleTracker` in `src/bot.py`), the
user-activity detector (`UserActivityDetector` in `src/bot.py`), the
session registry and bot spawner (`PipecatRunner.active_tasks` and
`PipecatRunner._spawn_bot` in `src/runner.py`), the request-parameter
resolution of the `/start` routes (`src/runner.py`), and the
Daily-session provisioning logic (`_start_daily_session_logic` in
`src/runner.py`).  Effects that the code performs (queueing LLM frames,
requesting task cancellation, spawning a worker, inserting into the
registry, issuing HTTP calls) are made explicit as fields of result
structures; log output (`print`/`logger`) is not modelled except where a
claim is about logging.  Outbound HTTP request payloads are not modelled;
upstream HTTP responses are inputs of the embedding.
-/

namespace Pipecat

/-- One entry of the conversation context: a `{"role": ..., "content": ...}`
dict appended to the `messages` list in `run_bot` (`src/bot.py`). -/
structure Message where
  role : String
  content : String
deriving DecidableEq, Repr

/-- The mutable idle state of `class IdleTracker` (`src/bot.py`, `__init__`):
`consecutive_idle_count = 0`, `conversation_ended = False`,
`continuous_idle_time_seconds = 0`. -/
structure IdleTracker where
  consecutive_idle_count : Nat
  conversation_ended : Bool
  continuous_idle_time_seconds : Nat
deriving DecidableEq, Repr

/-- The freshly constructed tracker (`idle_tracker = IdleTracker()`). -/
def IdleTracker.initial : IdleTracker :=
  { consecutive_idle_count := 0
    conversation_ended := false
    continuous_idle_time_seconds := 0 }

/-- The recurring idle-timer interval: `UserIdleProcessor(..., timeout=15.0)`
in `run_bot` (`src/bot.py`). -/
def idleTimeoutSeconds : Nat := 15

/-- The amount added to the continuous idle counter on each idle tick:
`self.continuous_idle_time_seconds += 10` in `IdleTracker.handle_idle`. -/
def idleTickIncrement : Nat := 10

/-- The hard ceiling compared against in `IdleTracker.handle_idle`:
`if self.continuous_idle_time_seconds > 200`. -/
def idleCeilingSeconds : Nat := 200

/-- Embeds `IdleTracker.reset_idle_timer` (`src/bot.py`): sets
`continuous_idle_time_seconds = 0` and touches nothing else (the guarded
`print` is log output only). -/
def IdleTracker.reset_idle_timer (t : IdleTracker) : IdleTracker :=
  { t with continuous_idle_time_seconds := 0 }

/-- The `tone_variations` list in `IdleTracker.handle_idle`. -/
def toneVariations : List String :=
  ["with a friendly, concerned tone", "with a casual, checking-in tone"]

/-- The system turn appended on the first and second idle events, built from
the f-string in `IdleTracker.handle_idle`. -/
def checkInMessage (tone : String) : Message :=
  { role := "system"
    content := "Ask the user directly: Are you still there? Use " ++ tone ++
      ". Keep it short and natural." }

/-- The system turn appended on the third idle event. -/
def goodbyeMessage : Message :=
  { role := "system"
    content := "Say a friendly goodbye to the user. Something like \x27Ok, I think you might have stepped away. Talk to you later!\x27 Keep it warm and natural." }

/-- Result of one call to `IdleTracker.handle_idle`: the updated tracker, the
updated `messages` list, and the two effects the body can perform —
`task.cancel()` (`cancelRequested`) and
`task.queue_frames([LLMMessagesUpdateFrame(..., run_llm=True)])`
(`responseQueued`). -/
structure IdleStepResult where
  tracker : IdleTracker
  messages : List Message
  cancelRequested : Bool
  responseQueued : Bool
deriving DecidableEq, Repr

/-- Embeds `IdleTracker.handle_idle` (`src/bot.py`), modelling the path where a
requested `task.cancel()` does not itself raise: add 10 to the continuous
counter; if it now exceeds 200, request cancellation and return; else if the
conversation has ended, return; else bump `consecutive_idle_count`, and for
counts 1 and 2 append a check-in system turn (tone picked by
`tone_variations[count - 1]`) and queue a response, while for counts ≥ 3
append the goodbye turn, queue a response and latch `conversation_ended`. -/
def IdleTracker.handle_idle (t0 : IdleTracker) (messages : List Message) :
    IdleStepResult :=
  let t1 : IdleTracker :=
    { t0 with continuous_idle_time_seconds :=
        t0.continuous_idle_time_seconds + idleTickIncrement }
  if idleCeilingSeconds < t1.continuous_idle_time_seconds then
    { tracker := t1, messages := messages
      cancelRequested := true, responseQueued := false }
  else if t1.conversation_ended then
    { tracker := t1, messages := messages
      cancelRequested := false, responseQueued := false }
  else
    let t2 : IdleTracker :=
      { t1 with consecutive_idle_count := t1.consecutive_idle_count + 1 }
    if t2.consecutive_idle_count ≤ 2 then
      let tone := toneVariations.getD (t2.consecutive_idle_count - 1) ""
      { tracker := t2, messages := messages ++ [checkInMessage tone]
        cancelRequested := false, responseQueued := true }
    else
      { tracker := { t2 with conversation_ended := true }
        messages := messages ++ [goodbyeMessage]
        cancelRequested := false, responseQueued := true }

/-- Runs `n` consecutive idle ticks with no intervening activity: iterate
`handle_idle`, threading the tracker and the conversation transcript. -/
def idleTicks : Nat → IdleTracker → List Message → IdleStepResult
  | 0, t, msgs =>
      { tracker := t, messages := msgs
        cancelRequested := false, responseQueued := false }
  | n + 1, t, msgs =>
      let r := t.handle_idle msgs
      idleTicks n r.tracker r.messages

/-- The direction argument of `FrameProcessor.process_frame`; the code
inspects only its `name` attribute (`direction.name == "user"`). -/
structure FrameDirection where
  name : String
deriving DecidableEq, Repr

/-- An opaque pipeline frame; its payload is irrelevant to the detector,
which must forward it unchanged. -/
structure Frame where
  payload : String
deriving DecidableEq, Repr

/-- Result of one `UserActivityDetector.process_frame` call: the updated
idle tracker, the (untouched) conversation transcript, and the frames pushed
further down the pipeline. -/
structure DetectorStepResult where
  tracker : IdleTracker
  messages : List Message
  pushed : List Frame
deriving DecidableEq, Repr

/-- Embeds `UserActivityDetector.process_frame` (`src/bot.py`): when the direction
name is "user", call `reset_idle_timer` on the shared tracker, then push the
frame through unchanged (exactly once). -/
def UserActivityDetector.process_frame (t : IdleTracker) (msgs : List Message)
    (frame : Frame) (direction : FrameDirection) : DetectorStepResult :=
  let t1 := if direction.name = "user" then t.reset_idle_timer else t
  { tracker := t1, messages := msgs, pushed := [frame] }

/-- Every branch of `handle_idle` carries the `+= 10` increment performed at
the top of the body. -/
theorem handle_idle_continuous_add (t : IdleTracker) (msgs : List Message) :
    (t.handle_idle msgs).tracker.continuous_idle_time_seconds =
      t.continuous_idle_time_seconds + idleTickIncrement := by
  unfold IdleTracker.handle_idle
  dsimp only
  split
  · rfl
  · split
    · rfl
    · split <;> rfl

/-- Iterating `handle_idle` adds `idleTickIncrement` per tick to the
continuous counter, from any starting state. -/
theorem idleTicks_continuous (n : Nat) :
    ∀ (t : IdleTracker) (msgs : List Message),
      (idleTicks n t msgs).tracker.continuous_idle_time_seconds =
        t.continuous_idle_time_seconds + idleTickIncrement * n := by
  induction n with
  | zero => intro t msgs; simp [idleTicks]
  | succ n ih =>
      intro t msgs
      rw [idleTicks]
      rw [ih, handle_idle_continuous_add]
      ring

/-- C1 counterexample: the very first idle tick from a fresh session leaves
`continuous_idle_time_seconds` at 10, not at the 15-second timer interval
claimed (15 * 1 = 15). -/
theorem C1_counterexample :
    (IdleTracker.initial.handle_idle []).tracker.continuous_idle_time_seconds
      = 10 ∧
    idleTimeoutSeconds = 15 ∧
    (IdleTracker.initial.handle_idle []).tracker.continuous_idle_time_seconds
      ≠ idleTimeoutSeconds * 1 := by
  refine ⟨rfl, rfl, ?_⟩
  decide

/-- C1 (amended): each idle tick adds the fixed increment of 10 seconds to
`continuous_idle_time_seconds` — not the 15-second timer interval — so after
`n` consecutive ticks from a fresh session with no intervening activity the
counter equals `10 * n` (10, 20, 30 at ticks 1, 2, 3). -/
theorem C1_idle_tick_accumulation (n : Nat) :
    (idleTicks n IdleTracker.initial []).tracker.continuous_idle_time_seconds
      = idleTickIncrement * n ∧
    idleTickIncrement = 10 ∧ idleTimeoutSeconds = 15 := by
  refine ⟨?_, rfl, rfl⟩
  rw [idleTicks_continuous]
  simp [IdleTracker.initial]

/-- C3: on a tick whose increment takes the continuous counter past the
200-second ceiling, `handle_idle` requests task cancellation regardless of
`conversation_ended`, appends no turn, queues no response, leaves
`consecutive_idle_count` untouched, and the post-state is again past the
ceiling, so the next tick requests cancellation again. -/
theorem C3_ceiling_backstop (t : IdleTracker) (msgs : List Message)
    (h : idleCeilingSeconds <
      t.continuous_idle_time_seconds + idleTickIncrement) :
    (t.handle_idle msgs).cancelRequested = true ∧
    (t.handle_idle msgs).messages = msgs ∧
    (t.handle_idle msgs).responseQueued = false ∧
    (t.handle_idle msgs).tracker.consecutive_idle_count =
      t.consecutive_idle_count ∧
    idleCeilingSeconds <
      (t.handle_idle msgs).tracker.continuous_idle_time_seconds +
        idleTickIncrement := by
  unfold IdleTracker.handle_idle
  dsimp only
  rw [if_pos h]
  refine ⟨rfl, rfl, rfl, rfl, ?_⟩
  simp only [idleCeilingSeconds, idleTickIncrement] at h ⊢
  omega

/-- Witness for C3 at the concrete state (count 3, ended, 195 s idle). -/
theorem C3_ceiling_backstop_witness :
    idleCeilingSeconds < (195 : Nat) + idleTickIncrement ∧
    ((⟨3, true, 195⟩ : IdleTracker).handle_idle []).cancelRequested = true :=
  ⟨by decide, (C3_ceiling_backstop ⟨3, true, 195⟩ [] (by decide)).1⟩

/-- A below-ceiling tick on a not-ended tracker with post-increment count in
{1, 2} appends exactly the check-in turn for `tone_variations[count - 1]`
and queues a response. -/
theorem handle_idle_checkin (k s : Nat) (msgs : List Message)
    (hCeil : s + idleTickIncrement ≤ idleCeilingSeconds)
    (hCount : k + 1 ≤ 2) :
    IdleTracker.handle_idle ⟨k, false, s⟩ msgs =
      { tracker := ⟨k + 1, false, s + idleTickIncrement⟩
        messages := msgs ++ [checkInMessage (toneVariations.getD k "")]
        cancelRequested := false
        responseQueued := true } := by
  unfold IdleTracker.handle_idle
  dsimp only
  rw [if_neg (by omega), if_neg (by simp), if_pos hCount]
  simp

/-- A below-ceiling tick on a not-ended tracker with post-increment count
at least 3 appends exactly the goodbye turn, queues a response, and latches
`conversation_ended`. -/
theorem handle_idle_goodbye (k s : Nat) (msgs : List Message)
    (hCeil : s + idleTickIncrement ≤ idleCeilingSeconds)
    (hCount : 2 < k + 1) :
    IdleTracker.handle_idle ⟨k, false, s⟩ msgs =
      { tracker := ⟨k + 1, true, s + idleTickIncrement⟩
        messages := msgs ++ [goodbyeMessage]
        cancelRequested := false
        responseQueued := true } := by
  unfold IdleTracker.handle_idle
  dsimp only
  rw [if_neg (by omega), if_neg (by simp), if_neg (by omega)]

/-- The escalation behaviour of three consecutive idle ticks, each below the
ceiling, from a session whose closing sequence has not been triggered
(count 0, not ended, continuous counter `c`): tick 1 and tick 2 each append
exactly one check-in system turn with distinct tones and queue a response;
tick 3 appends the goodbye turn, queues a response, and latches
`conversation_ended` — which was still false after ticks 1 and 2 — without
requesting cancellation. -/
def EscalationOrdering (c : Nat) (msgs : List Message) : Prop :=
  let s0 : IdleTracker := ⟨0, false, c⟩
  let r1 := s0.handle_idle msgs
  let r2 := r1.tracker.handle_idle r1.messages
  let r3 := r2.tracker.handle_idle r2.messages
  r1.messages = msgs ++ [checkInMessage (toneVariations.getD 0 "")] ∧
  r1.responseQueued = true ∧ r1.cancelRequested = false ∧
  r1.tracker.conversation_ended = false ∧
  r2.messages = r1.messages ++ [checkInMessage (toneVariations.getD 1 "")] ∧
  r2.responseQueued = true ∧ r2.cancelRequested = false ∧
  r2.tracker.conversation_ended = false ∧
  r3.messages = r2.messages ++ [goodbyeMessage] ∧
  r3.responseQueued = true ∧ r3.cancelRequested = false ∧
  r3.tracker.conversation_ended = true ∧
  checkInMessage (toneVariations.getD 0 "") ≠
    checkInMessage (toneVariations.getD 1 "")

/-- C4: for every session with `conversation_ended` initially false and no
prior idle events, three consecutive below-ceiling idle ticks with no
intervening activity produce check-in(1), check-in(2) with a distinct tone,
then goodbye at tick 3, with `conversation_ended` set exactly at tick 3 and
no cancellation requested by any of the three ticks. -/
theorem C4_escalation_ordering (c : Nat) (msgs : List Message)
    (h : c + 3 * idleTickIncrement ≤ idleCeilingSeconds) :
    EscalationOrdering c msgs := by
  have h1 : c + idleTickIncrement ≤ idleCeilingSeconds := by
    simp only [idleCeilingSeconds, idleTickIncrement] at h ⊢; omega
  have h2 : c + idleTickIncrement + idleTickIncrement ≤ idleCeilingSeconds := by
    simp only [idleCeilingSeconds, idleTickIncrement] at h ⊢; omega
  have h3 : c + idleTickIncrement + idleTickIncrement + idleTickIncrement ≤
      idleCeilingSeconds := by
    simp only [idleCeilingSeconds, idleTickIncrement] at h ⊢; omega
  unfold EscalationOrdering
  dsimp only
  rw [handle_idle_checkin 0 c msgs h1 (by omega)]
  dsimp only
  rw [handle_idle_checkin 1 (c + idleTickIncrement) _ h2 (by omega)]
  dsimp only
  rw [handle_idle_goodbye 2 (c + idleTickIncrement + idleTickIncrement) _ h3
    (by omega)]
  refine ⟨rfl, rfl, rfl, rfl, rfl, rfl, rfl, rfl, rfl, rfl, rfl, rfl, ?_⟩
  decide

/-- Witness for C4 from the fresh session (counter 0, empty transcript). -/
theorem C4_escalation_ordering_witness : EscalationOrdering 0 [] :=
  C4_escalation_ordering 0 [] (by decide)

/-- C5: an inbound user-activity frame resets `continuous_idle_time_seconds`
to 0 and changes nothing else: `consecutive_idle_count`,
`conversation_ended` and the conversation transcript are untouched, and the
frame is forwarded unchanged exactly once. -/
theorem C5_activity_reset_frame_effect (t : IdleTracker)
    (msgs : List Message) (frame : Frame) :
    (t.reset_idle_timer).continuous_idle_time_seconds = 0 ∧
    (t.reset_idle_timer).consecutive_idle_count = t.consecutive_idle_count ∧
    (t.reset_idle_timer).conversation_ended = t.conversation_ended ∧
    UserActivityDetector.process_frame t msgs frame ⟨"user"⟩ =
      { tracker := t.reset_idle_timer, messages := msgs
        pushed := [frame] } := by
  refine ⟨rfl, rfl, rfl, ?_⟩
  unfold UserActivityDetector.process_frame
  simp

/-- C6: in any state with `conversation_ended = true`, an idle tick whose
post-increment continuous counter is still at or below the 200-second
ceiling appends no conversation turn, queues no response, and leaves
`consecutive_idle_count` unchanged. -/
theorem C6_post_goodbye_quiescence (t : IdleTracker) (msgs : List Message)
    (hEnded : t.conversation_ended = true)
    (hBelow : t.continuous_idle_time_seconds + idleTickIncrement ≤
        idleCeilingSeconds) :
    (t.handle_idle msgs).messages = msgs ∧
    (t.handle_idle msgs).responseQueued = false ∧
    (t.handle_idle msgs).tracker.consecutive_idle_count =
      t.consecutive_idle_count := by
  unfold IdleTracker.handle_idle
  dsimp only
  rw [if_neg (by omega), if_pos hEnded]
  exact ⟨rfl, rfl, rfl⟩

/-- Witness for C6 at the concrete ended state (count 3, ended, 50 s). -/
theorem C6_post_goodbye_quiescence_witness :
    ((⟨3, true, 50⟩ : IdleTracker).handle_idle []).messages = ([] : List Message) ∧
    ((⟨3, true, 50⟩ : IdleTracker).handle_idle []).responseQueued = false :=
  ⟨(C6_post_goodbye_quiescence ⟨3, true, 50⟩ [] rfl (by decide)).1,
   (C6_post_goodbye_quiescence ⟨3, true, 50⟩ [] rfl (by decide)).2.1⟩

/-- C10: the activity reset is idempotent, and is the identity on any state
whose continuous counter is already 0, so any run of consecutive activity
events has the same effect on the idle state as a single one. -/
theorem C10_reset_idempotent (t : IdleTracker) :
    (t.reset_idle_timer).reset_idle_timer = t.reset_idle_timer ∧
    (t.continuous_idle_time_seconds = 0 → t.reset_idle_timer = t) := by
  constructor
  · rfl
  · intro h
    obtain ⟨k, e, s⟩ := t
    simp only [IdleTracker.reset_idle_timer] at h ⊢
    simp_all

/-- Witness for C10 at the fresh tracker, whose counter is already 0. -/
theorem C10_reset_idempotent_witness :
    (IdleTracker.initial.reset_idle_timer).reset_idle_timer =
      IdleTracker.initial.reset_idle_timer ∧
    IdleTracker.initial.reset_idle_timer = IdleTracker.initial :=
  ⟨(C10_reset_idempotent IdleTracker.initial).1,
   (C10_reset_idempotent IdleTracker.initial).2 rfl⟩

/-!
The session registry `PipecatRunner.active_tasks` (`src/runner.py`) is a
Python dict from task id to the spawned asyncio task.  We embed it as an
insertion-ordered association list with Python-dict semantics and the task
handle abstracted to a `Nat`.
-/

/-- Python dict assignment `m[k] = v`: overwrite in place if the key exists,
else append a new entry. -/
def dictSet (m : List (String × Nat)) (k : String) (v : Nat) :
    List (String × Nat) :=
  if m.any (fun p => p.1 == k) then
    m.map (fun p => if p.1 == k then (k, v) else p)
  else m ++ [(k, v)]

/-- Python dict deletion `del m[k]` (callers guard on membership first). -/
def dictDelete (m : List (String × Nat)) (k : String) :
    List (String × Nat) :=
  m.filter (fun p => !(p.1 == k))

/-- Python dict lookup `m.get(k)` / `m[k]`. -/
def dictLookup (m : List (String × Nat)) (k : String) : Option Nat :=
  (m.find? (fun p => p.1 == k)).map Prod.snd

/-- Python membership test `k in m`. -/
def dictHasKey (m : List (String × Nat)) (k : String) : Bool :=
  m.any (fun p => p.1 == k)

/-- Task-id generation at the Daily `/start` route:
`task_id = f"daily_{len(self.active_tasks)}"`. -/
def nextTaskId (m : List (String × Nat)) : String :=
  "daily_" ++ toString m.length

/-- The two registry mutations of `src/runner.py`: a session start ends with
`self.active_tasks[task_id] = task`; a finished worker runs the `_spawn_bot`
cleanup `if task_id in self.active_tasks: del self.active_tasks[task_id]`. -/
inductive RegistryOp where
  | startSession (handle : Nat)
  | finishSession (task_id : String)
deriving DecidableEq, Repr

/-- One registry mutation. -/
def registryStep (m : List (String × Nat)) : RegistryOp → List (String × Nat)
  | .startSession h => dictSet m (nextTaskId m) h
  | .finishSession id => if dictHasKey m id then dictDelete m id else m

/-- The registry reached from the empty initial `active_tasks` dict by a
sequence of starts and teardowns. -/
def runRegistry (ops : List RegistryOp) : List (String × Nat) :=
  ops.foldl registryStep []

theorem dictLookup_map_overwrite (m : List (String × Nat)) (k : String)
    (v : Nat) :
    dictLookup (m.map (fun p => if p.1 == k then (k, v) else p)) k =
      if dictHasKey m k then some v else none := by
  induction m with
  | nil => rfl
  | cons p m ih =>
      by_cases hp : (p.1 == k) = true
      · have h1 : (p :: m).map (fun q => if q.1 == k then (k, v) else q) =
            (k, v) :: m.map (fun q => if q.1 == k then (k, v) else q) := by
          rw [List.map_cons, if_pos hp]
        rw [h1]
        unfold dictLookup
        rw [List.find?_cons_of_pos _ (by simp)]
        simp [dictHasKey, hp]
      · have h1 : (p :: m).map (fun q => if q.1 == k then (k, v) else q) =
            p :: m.map (fun q => if q.1 == k then (k, v) else q) := by
          rw [List.map_cons, if_neg hp]
        rw [h1]
        unfold dictLookup
        rw [List.find?_cons_of_neg _ (by simp [hp])]
        rw [show dictHasKey (p :: m) k = dictHasKey m k by
          simp [dictHasKey, hp]]
        exact ih

theorem dictLookup_append_single (m : List (String × Nat)) (k : String)
    (v : Nat) (h : m.any (fun p => p.1 == k) = false) :
    dictLookup (m ++ [(k, v)]) k = some v := by
  induction m with
  | nil => simp [dictLookup]
  | cons p m ih =>
      simp only [List.any_cons, Bool.or_eq_false_iff] at h
      rw [List.cons_append]
      unfold dictLookup
      rw [List.find?_cons_of_neg _ (by simp [h.1])]
      exact ih h.2

/-- Overwrite semantics of Python dict assignment: after `m[k] = v`, looking
up `k` yields `v` (never the previous handle). -/
theorem dictSet_lookup (m : List (String × Nat)) (k : String) (v : Nat) :
    dictLookup (dictSet m k v) k = some v := by
  unfold dictSet
  split
  case isTrue hAny =>
      rw [dictLookup_map_overwrite]
      simp [dictHasKey, hAny]
  case isFalse hAny =>
      exact dictLookup_append_single m k v (Bool.eq_false_iff.mpr hAny)

theorem dictSet_keys_nodup (m : List (String × Nat)) (k : String) (v : Nat)
    (h : (m.map Prod.fst).Nodup) :
    ((dictSet m k v).map Prod.fst).Nodup := by
  unfold dictSet
  split
  case isTrue hAny =>
      have hf : ((m.map (fun p => if p.1 == k then (k, v) else p)).map
          Prod.fst) = m.map Prod.fst := by
        rw [List.map_map]
        apply List.map_congr_left
        intro p _
        by_cases hp : p.1 == k
        · simp only [Function.comp, if_pos hp]
          exact (beq_iff_eq.mp hp).symm
        · simp [Function.comp, hp]
      rw [hf]; exact h
  case isFalse hAny =>
      have hk : k ∉ m.map Prod.fst := by
        intro hk
        obtain ⟨p, hp, hpk⟩ := List.mem_map.mp hk
        exact hAny (List.any_eq_true.mpr ⟨p, hp, by simp [hpk]⟩)
      rw [List.map_append]
      simp only [List.map_cons, List.map_nil]
      rw [List.nodup_append]
      refine ⟨h, List.nodup_singleton k, ?_⟩
      intro a ha hb
      simp only [List.mem_singleton] at hb
      subst hb
      exact hk ha

theorem dictDelete_keys_nodup (m : List (String × Nat)) (k : String)
    (h : (m.map Prod.fst).Nodup) :
    ((dictDelete m k).map Prod.fst).Nodup :=
  List.Nodup.sublist (List.Sublist.map Prod.fst (List.filter_sublist m)) h

theorem dictDelete_lookup_self (m : List (String × Nat)) (k : String) :
    dictLookup (dictDelete m k) k = none := by
  induction m with
  | nil => rfl
  | cons p m ih =>
      by_cases hp : (p.1 == k) = true
      · rw [show dictDelete (p :: m) k = dictDelete m k by
          simp [dictDelete, List.filter_cons, hp]]
        exact ih
      · rw [show dictDelete (p :: m) k = p :: dictDelete m k by
          simp [dictDelete, List.filter_cons, hp]]
        unfold dictLookup
        rw [List.find?_cons_of_neg _ (by simp [hp])]
        exact ih

theorem dictDelete_lookup_other (m : List (String × Nat)) (k j : String)
    (hjk : j ≠ k) :
    dictLookup (dictDelete m k) j = dictLookup m j := by
  induction m with
  | nil => rfl
  | cons p m ih =>
      by_cases hp : (p.1 == k) = true
      · rw [show dictDelete (p :: m) k = dictDelete m k by
          simp [dictDelete, List.filter_cons, hp]]
        rw [ih]
        unfold dictLookup
        rw [List.find?_cons_of_neg _ (by
          have hpk : p.1 = k := beq_iff_eq.mp hp
          simp [hpk]
          exact fun h => hjk h.symm)]
      · rw [show dictDelete (p :: m) k = p :: dictDelete m k by
          simp [dictDelete, List.filter_cons, hp]]
        by_cases hq : (p.1 == j) = true
        · unfold dictLookup
          rw [List.find?_cons_of_pos (dictDelete m k) hq,
            List.find?_cons_of_pos m hq]
        · unfold dictLookup
          rw [List.find?_cons_of_neg _ (by simp [hq]),
            List.find?_cons_of_neg _ (by simp [hq])]
          exact ih

theorem dictLookup_eq_none_of_not_hasKey (m : List (String × Nat))
    (k : String) (h : dictHasKey m k = false) :
    dictLookup m k = none := by
  induction m with
  | nil => rfl
  | cons p m ih =>
      simp only [dictHasKey, List.any_cons, Bool.or_eq_false_iff] at h
      unfold dictLookup
      rw [List.find?_cons_of_neg _ (by simp [h.1])]
      exact ih h.2

/-- C2 counterexample: run `start(100); start(101); finish "daily_0";
start(102)` from the empty registry.  The third start is assigned id
`daily_1` (`len(active_tasks)` is again 1 after the removal), which is still
present and bound to handle 101; the insert overwrites it with 102 instead
of being rejected as a no-op. -/
theorem C2_counterexample :
    dictHasKey
      (runRegistry [RegistryOp.startSession 100, RegistryOp.startSession 101,
        RegistryOp.finishSession "daily_0"]) "daily_1" = true ∧
    nextTaskId
      (runRegistry [RegistryOp.startSession 100, RegistryOp.startSession 101,
        RegistryOp.finishSession "daily_0"]) = "daily_1" ∧
    dictLookup
      (runRegistry [RegistryOp.startSession 100, RegistryOp.startSession 101,
        RegistryOp.finishSession "daily_0"]) "daily_1" = some 101 ∧
    dictLookup
      (runRegistry [RegistryOp.startSession 100, RegistryOp.startSession 101,
        RegistryOp.finishSession "daily_0", RegistryOp.startSession 102])
      "daily_1" = some 102 ∧
    (some (102 : Nat)) ≠ some 101 := by
  refine ⟨?_, ?_, ?_, ?_, ?_⟩ <;> decide

/-- C2 (amended): the registry is a Python dict, so it does hold at most one
entry per session id at every reachable state; but an `Insert` whose id is
already present is not rejected — dict assignment overwrites the stored
handle — and since ids are generated as `daily_{len(active_tasks)}` an
in-use id can be reissued after a removal. -/
theorem C2_registry_at_most_one_entry :
    (∀ ops : List RegistryOp, ((runRegistry ops).map Prod.fst).Nodup) ∧
    (∀ (m : List (String × Nat)) (k : String) (v : Nat),
      dictLookup (dictSet m k v) k = some v) := by
  constructor
  · intro ops
    have aux : ∀ (l : List RegistryOp) (m : List (String × Nat)),
        (m.map Prod.fst).Nodup →
        ((l.foldl registryStep m).map Prod.fst).Nodup := by
      intro l
      induction l with
      | nil => intro m h; simpa using h
      | cons op l ih =>
          intro m h
          rw [List.foldl_cons]
          apply ih
          cases op with
          | startSession hdl => exact dictSet_keys_nodup _ _ _ h
          | finishSession id =>
              simp only [registryStep]
              split
              · exact dictDelete_keys_nodup _ _ h
              · exact h
    exact aux ops [] (by simp)
  · exact dictSet_lookup

/-- Outcome of the worker coroutine awaited inside
`PipecatRunner._spawn_bot`: `bot_func` returned normally, raised an
exception, or the task was cancelled. -/
inductive WorkerOutcome where
  | completed
  | fault (msg : String)
  | cancelled
deriving DecidableEq, Repr

/-- Observable result of `_spawn_bot` supervision: the registry after the
`finally` cleanup, what `except Exception` logged, and whether anything
escaped the coroutine body (only cancellation does — `except Exception`
does not intercept `CancelledError` — and even that reaches only the
asyncio task machinery, never the `/start` caller that ran
`asyncio.create_task`). -/
structure SpawnBotResult where
  registry : List (String × Nat)
  loggedError : Option String
  escapesCoroutine : Bool
deriving DecidableEq, Repr

/-- Embeds `PipecatRunner._spawn_bot` (`src/runner.py`), try/except/finally
semantics around `await bot_func(runner_args)`: `except Exception as e`
logs `f"Error in bot {task_id}: {e}"` and swallows the fault; the `finally`
block removes `task_id` from `active_tasks` when present. -/
def spawnBotSupervise (reg : List (String × Nat)) (task_id : String)
    (outcome : WorkerOutcome) : SpawnBotResult :=
  let logged : Option String :=
    match outcome with
    | .fault m => some ("Error in bot " ++ task_id ++ ": " ++ m)
    | _ => none
  let escapes : Bool :=
    match outcome with
    | .cancelled => true
    | _ => false
  let reg1 :=
    if dictHasKey reg task_id then dictDelete reg task_id else reg
  { registry := reg1, loggedError := logged, escapesCoroutine := escapes }

/-- C9: a worker fault is caught at the spawn boundary and logged, and never
escapes `_spawn_bot`; on any completion — normal, faulted or cancelled —
the entry of the session is gone from the registry while the entry of every
other session is untouched. -/
theorem C9_worker_isolation_and_cleanup (reg : List (String × Nat))
    (task_id : String) (outcome : WorkerOutcome) :
    (∀ m : String, outcome = WorkerOutcome.fault m →
      (spawnBotSupervise reg task_id outcome).loggedError =
        some ("Error in bot " ++ task_id ++ ": " ++ m) ∧
      (spawnBotSupervise reg task_id outcome).escapesCoroutine = false) ∧
    dictLookup (spawnBotSupervise reg task_id outcome).registry task_id =
      none ∧
    (∀ j : String, j ≠ task_id →
      dictLookup (spawnBotSupervise reg task_id outcome).registry j =
        dictLookup reg j) := by
  refine ⟨?_, ?_, ?_⟩
  · rintro m rfl
    exact ⟨rfl, rfl⟩
  · show dictLookup
      (if dictHasKey reg task_id then dictDelete reg task_id else reg)
      task_id = none
    by_cases hk : dictHasKey reg task_id
    · rw [if_pos hk]
      exact dictDelete_lookup_self reg task_id
    · rw [if_neg hk]
      exact dictLookup_eq_none_of_not_hasKey reg task_id
        (Bool.eq_false_iff.mpr hk)
  · intro j hj
    show dictLookup
      (if dictHasKey reg task_id then dictDelete reg task_id else reg) j =
      dictLookup reg j
    by_cases hk : dictHasKey reg task_id
    · rw [if_pos hk]
      exact dictDelete_lookup_other reg task_id j hj
    · rw [if_neg hk]

/-- Witness for C9 at a two-session registry with a faulting worker. -/
theorem C9_worker_isolation_and_cleanup_witness :
    (spawnBotSupervise [("daily_0", 100), ("daily_1", 101)] "daily_0"
      (WorkerOutcome.fault "boom")).loggedError =
      some "Error in bot daily_0: boom" ∧
    (spawnBotSupervise [("daily_0", 100), ("daily_1", 101)] "daily_0"
      (WorkerOutcome.fault "boom")).escapesCoroutine = false ∧
    dictLookup (spawnBotSupervise [("daily_0", 100), ("daily_1", 101)]
      "daily_0" (WorkerOutcome.fault "boom")).registry "daily_0" = none ∧
    dictLookup (spawnBotSupervise [("daily_0", 100), ("daily_1", 101)]
      "daily_0" (WorkerOutcome.fault "boom")).registry "daily_1" =
      dictLookup [("daily_0", 100), ("daily_1", 101)] "daily_1" := by
  have h := C9_worker_isolation_and_cleanup
    [("daily_0", 100), ("daily_1", 101)] "daily_0"
    (WorkerOutcome.fault "boom")
  exact ⟨(h.1 "boom" rfl).1, (h.1 "boom" rfl).2, h.2.1,
    h.2.2 "daily_1" (by decide)⟩


/-!
Request-parameter resolution of the `/start` routes (`src/runner.py`).
A `/start` request is a JSON dict; we model the top-level fields the code
reads plus the nested "body" dict.  Absent keys are `none`; `dict.get`
with a default becomes `Option.getD`.
-/

/-- The nested "body" dict of a `/start` request, restricted to the keys the
code reads from it. -/
structure BodyParams where
  bot_name : Option String
  user_name : Option String
  system_prompt : Option String
  language : Option String
  heygen_avatar_id : Option String
  model : Option String
deriving DecidableEq, Repr

/-- The empty body dict `{}`. -/
def BodyParams.emptyDict : BodyParams :=
  ⟨none, none, none, none, none, none⟩

/-- Python truthiness of whether the nested body dict has any (modelled)
key: `{}` is falsy, any non-empty dict is truthy. -/
def BodyParams.isEmptyDict (b : BodyParams) : Bool :=
  b.bot_name.isNone && b.user_name.isNone && b.system_prompt.isNone &&
    b.language.isNone && b.heygen_avatar_id.isNone && b.model.isNone

/-- A `/start` request: `createDailyRoom` plus the top-level occurrences of
the logical parameters and the nested body dict. -/
structure StartRequest where
  createDailyRoom : Option Bool
  bot_name : Option String
  user_name : Option String
  system_prompt : Option String
  language : Option String
  heygen_avatar_id : Option String
  model : Option String
  body : BodyParams
deriving DecidableEq, Repr

/-- Python truthiness of a `dict.get` result: `None` and the empty string
are falsy. -/
def pyTruthy : Option String → Bool
  | none => false
  | some s => !(s == "")

/-- Python `a or b` where both operands are `dict.get(key)` results. -/
def pyOrOpt (a b : Option String) : Option String :=
  if pyTruthy a then a else b

/-- Python `a or d.get(key, default)`: the left operand if truthy, else the
right `dict.get` with its default. -/
def pyOrGetD (a b : Option String) (d : String) : String :=
  if pyTruthy a then a.getD "" else b.getD d

/-- Embeds `heygen_avatar_id = data.get("heygen_avatar_id") or
body.get("heygen_avatar_id")` (`_start_daily_session_logic`,
`src/runner.py`): top level first, then the nested body. -/
def resolveHeygenAvatarId (r : StartRequest) : Option String :=
  pyOrOpt r.heygen_avatar_id r.body.heygen_avatar_id

/-- Embeds `bot_name = body.get("bot_name") or data.get("bot_name", "Nano Banana
AI")`: the nested body first, then the top level, then the default. -/
def resolveBotName (r : StartRequest) : String :=
  pyOrGetD r.body.bot_name r.bot_name "Nano Banana AI"

/-- Embeds `user_name = body.get("user_name") or data.get("user_name",
"friend")`. -/
def resolveUserName (r : StartRequest) : String :=
  pyOrGetD r.body.user_name r.user_name "friend"

/-- Embeds `system_prompt = body.get("system_prompt") or
data.get("system_prompt")`. -/
def resolveSystemPrompt (r : StartRequest) : Option String :=
  pyOrOpt r.body.system_prompt r.system_prompt

/-- Embeds `language = body.get("language") or data.get("language")`. -/
def resolveLanguage (r : StartRequest) : Option String :=
  pyOrOpt r.body.language r.language

/-- The dict passed to the worker as `runner_args.body`: it holds the
original body under key "body" and the route-resolved fields; the
"heygen_avatar_id" key is present only when the resolved avatar id is
truthy (the code builds one of two dict literals). -/
structure SpawnBody where
  inner_body : BodyParams
  heygen_avatar_id : Option String
  bot_name : String
  user_name : String
  system_prompt : Option String
  language : Option String
deriving DecidableEq, Repr

/-- Construction of the spawn-body dict at the `/start` routes
(`src/runner.py`).  The `model` key is never copied out of the nested body,
so it travels only inside `inner_body`. -/
def buildSpawnBody (r : StartRequest) : SpawnBody :=
  let h := resolveHeygenAvatarId r
  { inner_body := r.body
    heygen_avatar_id := if pyTruthy h then h else none
    bot_name := resolveBotName r
    user_name := resolveUserName r
    system_prompt := resolveSystemPrompt r
    language := resolveLanguage r }

/-- Avatar-id extraction in `PipecatRunner._spawn_bot` (`src/runner.py`):
`body_data.get("heygen_avatar_id", "") or
body_data.get("body", {}).get("heygen_avatar_id", "")`. -/
def spawnAvatarId (sb : SpawnBody) : String :=
  let a := sb.heygen_avatar_id.getD ""
  let b := sb.inner_body.heygen_avatar_id.getD ""
  if a == "" then b else a

/-- Worker-variant selection in `_spawn_bot`:
`use_video_bot = bool(heygen_avatar_id and heygen_avatar_id.strip())`. -/
def use_video_bot (sb : SpawnBody) : Bool :=
  !(spawnAvatarId sb == "") && !((spawnAvatarId sb).trim == "")

/-- Model selection in `run_bot` (`src/bot.py`):
`inner_body = body_data.get("body", {}) or body_data;
model = inner_body.get("model", "gpt-4o-mini")`.  When the nested body is
the empty dict, the fallback reads the spawn-body dict itself, which has no
"model" key, so the default applies. -/
def resolveModel (sb : SpawnBody) : String :=
  if sb.inner_body.isEmptyDict then "gpt-4o-mini"
  else sb.inner_body.model.getD "gpt-4o-mini"

/-- Modelled from the spec for comparison (refinement check): "Nested
parameter resolution order: explicit top-level field, else nested body
field, else default", applied to `bot_name` the way the spec words it. -/
def resolveBotNameSpecOrder (r : StartRequest) : String :=
  match r.bot_name with
  | some s => s
  | none =>
      match r.body.bot_name with
      | some s => s
      | none => "Nano Banana AI"

/-- A request carrying `bot_name` both at top level ("A") and inside the
nested body ("B"). -/
def exPrecedenceRequest : StartRequest :=
  { createDailyRoom := none
    bot_name := some "A"
    user_name := none, system_prompt := none, language := none
    heygen_avatar_id := none, model := none
    body :=
      { bot_name := some "B"
        user_name := none, system_prompt := none, language := none
        heygen_avatar_id := none, model := none } }

/-- C7 counterexample: with `bot_name` given both at top level ("A") and in
the nested body ("B"), the route resolves it to the nested value "B"
(`body.get(...) or data.get(...)`), while the claimed precedence — explicit
top-level field first — would give "A". -/
theorem C7_counterexample :
    resolveBotName exPrecedenceRequest = "B" ∧
    resolveBotNameSpecOrder exPrecedenceRequest = "A" ∧
    resolveBotName exPrecedenceRequest ≠
      resolveBotNameSpecOrder exPrecedenceRequest := by
  refine ⟨rfl, rfl, ?_⟩
  decide

/-- Stripping the empty string yields the empty string. -/
theorem trim_empty_string : "".trim = "" := by
  simp [String.trim, Substring.trim, Substring.trimLeft, Substring.trimRight,
    Substring.takeWhile, Substring.takeRightWhile]
  rw [Substring.takeWhileAux]
  rw [Substring.takeRightWhileAux]
  simp [String.toSubstring, Substring.toString, String.extract]

/-- The avatar id `_spawn_bot` recovers from the spawn-body dict equals the
route-resolved avatar id (with the absent key reading as ""). -/
theorem spawnAvatarId_build (r : StartRequest) :
    spawnAvatarId (buildSpawnBody r) =
      (resolveHeygenAvatarId r).getD "" := by
  unfold spawnAvatarId buildSpawnBody
  dsimp only
  by_cases h1 : pyTruthy (resolveHeygenAvatarId r) = true
  · rw [if_pos h1]
    cases hr : resolveHeygenAvatarId r with
    | none =>
        rw [hr] at h1
        simp [pyTruthy] at h1
    | some s =>
        rw [hr] at h1
        simp only [Option.getD_some]
        have hs : (s == "") = false := by
          simpa [pyTruthy] using h1
        rw [if_neg (by simp [hs])]
  · rw [if_neg h1]
    simp only [Option.getD_none]
    rw [if_pos (by simp)]
    unfold resolveHeygenAvatarId pyOrOpt at h1 ⊢
    by_cases h2 : pyTruthy r.heygen_avatar_id = true
    · rw [if_pos h2] at h1
      exact absurd h2 h1
    · rw [if_neg h2]

/-- C7 (amended): the avatar-capable worker is selected iff the resolved
avatar id (top level first, else nested body) is non-empty after stripping
whitespace; `bot_name`, `user_name` and `system_prompt` are resolved nested
body field first, else top-level field, else default — the reverse of the
claimed order — and the `model` parameter is read only from the nested
body, a top-level `model` field being ignored entirely. -/
theorem C7_param_resolution (r : StartRequest) :
    (use_video_bot (buildSpawnBody r) = true ↔
      ((resolveHeygenAvatarId r).getD "").trim ≠ "") ∧
    (∀ b : String, r.body.bot_name = some b → b ≠ "" →
      resolveBotName r = b) ∧
    (pyTruthy r.body.bot_name = false →
      resolveBotName r = r.bot_name.getD "Nano Banana AI") ∧
    (∀ u : String, r.body.user_name = some u → u ≠ "" →
      resolveUserName r = u) ∧
    (pyTruthy r.body.user_name = false →
      resolveUserName r = r.user_name.getD "friend") ∧
    (∀ p : String, r.body.system_prompt = some p → p ≠ "" →
      resolveSystemPrompt r = some p) ∧
    (pyTruthy r.body.system_prompt = false →
      resolveSystemPrompt r = r.system_prompt) ∧
    (∀ m : Option String,
      resolveModel (buildSpawnBody { r with model := m }) =
        resolveModel (buildSpawnBody r)) := by
  refine ⟨?_, ?_, ?_, ?_, ?_, ?_, ?_, ?_⟩
  · rw [use_video_bot, spawnAvatarId_build]
    constructor
    · intro h hc
      have h2 := (Bool.and_eq_true _ _).mp h
      rw [hc] at h2
      simp at h2
    · intro h
      have hs0 : ((resolveHeygenAvatarId r).getD "") ≠ "" := by
        intro hc
        apply h
        rw [hc]
        exact trim_empty_string
      apply (Bool.and_eq_true _ _).mpr
      constructor
      · simp [hs0]
      · simp [h]
  · intro b hb hbne
    unfold resolveBotName pyOrGetD
    rw [hb]
    rw [if_pos (by simp [pyTruthy, hbne])]
    rfl
  · intro hfalse
    unfold resolveBotName pyOrGetD
    rw [if_neg (by simp [hfalse])]
  · intro u hu hune
    unfold resolveUserName pyOrGetD
    rw [hu]
    rw [if_pos (by simp [pyTruthy, hune])]
    rfl
  · intro hfalse
    unfold resolveUserName pyOrGetD
    rw [if_neg (by simp [hfalse])]
  · intro p hp hpne
    unfold resolveSystemPrompt pyOrOpt
    rw [hp]
    rw [if_pos (by simp [pyTruthy, hpne])]
  · intro hfalse
    unfold resolveSystemPrompt pyOrOpt
    rw [if_neg (by simp [hfalse])]
  · intro m
    rfl

/-- Witness for C7 at the two-occurrence request: the nested body value
wins for `bot_name`, and the absent `user_name` falls through to the
built-in default. -/
theorem C7_param_resolution_witness :
    resolveBotName exPrecedenceRequest = "B" ∧
    resolveUserName exPrecedenceRequest = "friend" :=
  ⟨(C7_param_resolution exPrecedenceRequest).2.1 "B" rfl (by decide),
   (C7_param_resolution exPrecedenceRequest).2.2.2.2.1 rfl⟩


/-!
Daily-session provisioning: `_start_daily_session_logic` (`src/runner.py`).
The upstream Daily REST responses are inputs of the embedding; the outcome
records the route result together with whether a worker task was spawned
(`asyncio.create_task` reached), which registry insertion happened, and how
many room-creation / user-token-minting HTTP attempts were made (each is a
single straight-line call in the code, so a count above 1 would mean a
retry).
-/

/-- An upstream Daily REST API response, restricted to the fields the code
reads: the status code, the raw text used in error details, and the parsed
JSON fields `url`, `name` and `token`. -/
structure HttpResponse where
  status_code : Nat
  text : String
  url : String
  name : String
  token : String
deriving DecidableEq, Repr

/-- The environment one `/start` request runs against: the `DAILY_API_KEY`
and `DAILY_SAMPLE_ROOM_URL` variables and the three upstream responses the
code can receive (room creation, user meeting token, bot meeting token). -/
structure DailyEnv where
  api_key : Option String
  room_response : HttpResponse
  token_response : HttpResponse
  bot_token_response : HttpResponse
  sample_room_url : Option String
deriving DecidableEq, Repr

/-- The JSON body of a successful Daily `/start` response. -/
structure DailyStartResponse where
  status : String
  room_url : String
  bot_name : String
  user_name : String
  avatar_enabled : Bool
  session_id : String
deriving DecidableEq, Repr

/-- An `HTTPException` surfaced by the route. -/
structure RouteError where
  status_code : Nat
  detail : String
deriving DecidableEq, Repr

/-- Observable outcome of `_start_daily_session_logic`. -/
structure StartOutcome where
  result : Except RouteError DailyStartResponse
  spawned : Bool
  inserted : Option String
  spawn_room_url : Option String
  room_create_calls : Nat
  user_token_calls : Nat
deriving Repr

/-- Embeds `_start_daily_session_logic` (`src/runner.py`): check `DAILY_API_KEY`;
create a room (or resolve the sample room) and mint the user token, raising
`HTTPException(500, ...)` with the upstream body text on any non-200; mint
a separate bot token, falling back to a `?name=Zoe Fragkou` URL if that
mint fails; spawn the bot task, insert it under
`daily_{len(active_tasks)}`, and return the started response. -/
def start_daily_session_logic (env : DailyEnv) (activeCount : Nat)
    (data : StartRequest) : StartOutcome :=
  let create_room := data.createDailyRoom.getD true
  let heygen := resolveHeygenAvatarId data
  let bot_name := resolveBotName data
  let user_name := resolveUserName data
  if !(pyTruthy env.api_key) then
    { result := Except.error ⟨500, "DAILY_API_KEY not set"⟩
      spawned := false, inserted := none, spawn_room_url := none
      room_create_calls := 0, user_token_calls := 0 }
  else if create_room then
    if env.room_response.status_code ≠ 200 then
      { result := Except.error
          ⟨500, "Failed to create room: " ++ env.room_response.text⟩
        spawned := false, inserted := none, spawn_room_url := none
        room_create_calls := 1, user_token_calls := 0 }
    else if env.token_response.status_code ≠ 200 then
      { result := Except.error
          ⟨500, "Failed to create token: " ++ env.token_response.text⟩
        spawned := false, inserted := none, spawn_room_url := none
        room_create_calls := 1, user_token_calls := 1 }
    else
      let room_url := env.room_response.url
      let token := env.token_response.token
      let task_id := "daily_" ++ toString activeCount
      let bot_room_url :=
        if env.bot_token_response.status_code = 200 then
          room_url ++ "?t=" ++ env.bot_token_response.token
        else
          room_url ++ "?name=Zoe Fragkou"
      { result := Except.ok
          { status := "started"
            room_url := room_url ++ "?t=" ++ token
            bot_name := bot_name
            user_name := user_name
            avatar_enabled := pyTruthy heygen
            session_id := task_id }
        spawned := true
        inserted := some task_id
        spawn_room_url := some bot_room_url
        room_create_calls := 1, user_token_calls := 1 }
  else if !(pyTruthy env.sample_room_url) then
    { result := Except.error ⟨400, "No room URL provided"⟩
      spawned := false, inserted := none, spawn_room_url := none
      room_create_calls := 0, user_token_calls := 0 }
  else if env.token_response.status_code ≠ 200 then
    { result := Except.error
        ⟨500, "Failed to create token: " ++ env.token_response.text⟩
      spawned := false, inserted := none, spawn_room_url := none
      room_create_calls := 0, user_token_calls := 1 }
  else
    let room_url := env.sample_room_url.getD ""
    let token := env.token_response.token
    let task_id := "daily_" ++ toString activeCount
    let bot_room_url :=
      if env.bot_token_response.status_code = 200 then
        room_url ++ "?t=" ++ env.bot_token_response.token
      else
        room_url ++ "?name=Zoe Fragkou"
    { result := Except.ok
        { status := "started"
          room_url := room_url ++ "?t=" ++ token
          bot_name := bot_name
          user_name := user_name
          avatar_enabled := pyTruthy heygen
          session_id := task_id }
      spawned := true
      inserted := some task_id
      spawn_room_url := some bot_room_url
      room_create_calls := 0, user_token_calls := 1 }

/-- A request with no customisation at all. -/
def exPlainRequest : StartRequest :=
  { createDailyRoom := none
    bot_name := none, user_name := none, system_prompt := none
    language := none, heygen_avatar_id := none, model := none
    body := BodyParams.emptyDict }

/-- Room creation and user-token minting succeed, but minting the separate
bot token returns 500. -/
def exBotTokenFailEnv : DailyEnv :=
  { api_key := some "k"
    room_response := ⟨200, "", "https://x.daily.co/r1", "r1", ""⟩
    token_response := ⟨200, "", "", "", "tokU"⟩
    bot_token_response := ⟨500, "bot token refused", "", "", ""⟩
    sample_room_url := none }

/-- Room creation itself is refused with status 403 and body "forbidden". -/
def exRoomFailEnv : DailyEnv :=
  { api_key := some "k"
    room_response := ⟨403, "forbidden", "", "", ""⟩
    token_response := ⟨200, "", "", "", "tokU"⟩
    bot_token_response := ⟨200, "", "", "", "tokB"⟩
    sample_room_url := none }

/-- C8 counterexample, two parts.  (1) When the bot-token mint — a
token-minting call to the room provider — returns 500, the start does not
fail: it still spawns a worker, inserts a session, and answers "started"
with a fallback bot room URL.  (2) When room creation fails with upstream
status 403 and body "forbidden", the surfaced error is
`HTTPException(500, "Failed to create room: forbidden")`: the body is
carried but the upstream status 403 appears nowhere in it (the detail
contains no digit at all) and the raised status is the constant 500. -/
theorem C8_counterexample :
    exBotTokenFailEnv.bot_token_response.status_code ≠ 200 ∧
    (start_daily_session_logic exBotTokenFailEnv 0 exPlainRequest).spawned
      = true ∧
    (start_daily_session_logic exBotTokenFailEnv 0 exPlainRequest).inserted
      = some "daily_0" ∧
    (start_daily_session_logic exBotTokenFailEnv 0
      exPlainRequest).spawn_room_url =
      some "https://x.daily.co/r1?name=Zoe Fragkou" ∧
    (start_daily_session_logic exRoomFailEnv 0 exPlainRequest).result =
      Except.error ⟨500, "Failed to create room: forbidden"⟩ ∧
    exRoomFailEnv.room_response.status_code = 403 ∧
    ("Failed to create room: forbidden".toList.all fun c => !c.isDigit)
      = true := by
  refine ⟨by decide, rfl, rfl, rfl, rfl, rfl, by decide⟩

/-- C8 (amended): when room creation or the user-token mint returns a
non-success status, the start operation fails with an HTTP 500 whose detail
carries the upstream response body (the upstream status code is logged but
not included), no worker is spawned, no registry entry is inserted, and
exactly one attempt of each upstream call made so far was issued (no
retry); a failure minting the separate bot token, by contrast, is
tolerated via a fallback room URL. -/
theorem C8_provisioning_failure_atomicity (env : DailyEnv) (n : Nat)
    (data : StartRequest) (hKey : pyTruthy env.api_key = true)
    (hCreate : data.createDailyRoom.getD true = true) :
    (env.room_response.status_code ≠ 200 →
      start_daily_session_logic env n data =
        { result := Except.error
            ⟨500, "Failed to create room: " ++ env.room_response.text⟩
          spawned := false, inserted := none, spawn_room_url := none
          room_create_calls := 1, user_token_calls := 0 }) ∧
    (env.room_response.status_code = 200 →
      env.token_response.status_code ≠ 200 →
      start_daily_session_logic env n data =
        { result := Except.error
            ⟨500, "Failed to create token: " ++ env.token_response.text⟩
          spawned := false, inserted := none, spawn_room_url := none
          room_create_calls := 1, user_token_calls := 1 }) := by
  constructor
  · intro hRoom
    unfold start_daily_session_logic
    rw [if_neg (by simp [hKey]), if_pos hCreate, if_pos hRoom]
  · intro hRoom hTok
    unfold start_daily_session_logic
    rw [if_neg (by simp [hKey]), if_pos hCreate,
      if_neg (by simp [hRoom]), if_pos hTok]

/-- Witness for C8 (amended) at the 403/forbidden environment. -/
theorem C8_provisioning_failure_atomicity_witness :
    start_daily_session_logic exRoomFailEnv 0 exPlainRequest =
      { result := Except.error ⟨500, "Failed to create room: forbidden"⟩
        spawned := false, inserted := none, spawn_room_url := none
        room_create_calls := 1, user_token_calls := 0 } :=
  (C8_provisioning_failure_atomicity exRoomFailEnv 0 exPlainRequest
    (by decide) (by decide)).1 (by decide)

end Pipecat
